import Mathlib

/-!
Verification development for the chat client in src/gui.

The definitions below are shallow embeddings of the JavaScript functions in
src/gui/src/Chat.js, src/gui/src/utils.js and the useChatState hook
(src/unnamed/part_008).  JavaScript values are modelled as follows:
a field that may be `undefined` (absent) is an outer `Option`; a field whose
value may be `null` is an inner `Option`; the nanosecond timestamps produced
by getTimestampNs are natural numbers; object URLs returned by
URL.createObjectURL are natural-number handles drawn from a counter.
-/

namespace Copilot

/-- Stored state of the Chat Status Tracker (the chatState React state in
Chat.js lines 24-29).  text and prevText may be null. -/
structure ChatState where
  status : String
  text : Option String
  prevText : Option String
  timestamp : Nat
  deriving Repr, DecidableEq

/-- An argument to updateChatState.  Each field may be omitted (outer Option
= JavaScript undefined); the text field, when present, may itself be null
(inner Option). -/
structure ChatUpdate where
  text : Option (Option String)
  status : Option String
  timestamp : Option Nat
  deriving Repr, DecidableEq

/-- The timestamp actually used by updateChatState: the incoming one, or the
clock value read at apply time when the field was omitted
(Chat.js lines 58-60). -/
def effTimestamp (now : Nat) (u : ChatUpdate) : Nat :=
  u.timestamp.getD now

/-- Embedding of updateChatState (Chat.js lines 56-93).  `now` is the value
getTimestampNs would return at this call.  Omitted text keeps both text and
prevText; supplied text moves the old text into prevText; omitted status is
retained; the merged record replaces the stored one only when the stored
timestamp is at most the incoming one, otherwise the update is dropped. -/
def updateChatState (now : Nat) (u : ChatUpdate) (s : ChatState) : ChatState :=
  let timestamp := effTimestamp now u
  let text := match u.text with
    | none => s.text
    | some t => t
  let prevText := match u.text with
    | none => s.prevText
    | some _ => s.text
  let status := u.status.getD s.status
  if s.timestamp ≤ timestamp then
    { timestamp := timestamp, text := text, prevText := prevText, status := status }
  else
    s

/-- A sequence of updateChatState calls, each paired with the clock value at
its apply time, folded over the stored state in arrival order. -/
def applyUpdates (l : List (Nat × ChatUpdate)) (s : ChatState) : ChatState :=
  l.foldl (fun st p => updateChatState p.1 p.2 st) s

theorem updateChatState_timestamp_mono (now : Nat) (u : ChatUpdate) (s : ChatState) :
    s.timestamp ≤ (updateChatState now u s).timestamp := by
  unfold updateChatState
  dsimp only
  split
  · assumption
  · exact Nat.le_refl _

theorem applyUpdates_timestamp_mono (l : List (Nat × ChatUpdate)) (s : ChatState) :
    s.timestamp ≤ (applyUpdates l s).timestamp := by
  induction l generalizing s with
  | nil => exact Nat.le_refl _
  | cons p l ih =>
    exact Nat.le_trans (updateChatState_timestamp_mono p.1 p.2 s) (ih _)

/-- The file-size cap from Chat.js line 12: 10 * 1024 * 1024 bytes. -/
def MAX_FILE_SIZE : Nat := 10 * 1024 * 1024

/-- Whether the character list l ends with the given suffix.  (Defined over
character lists so that it evaluates by kernel reduction.) -/
def endsWithChars (l suffix : List Char) : Bool :=
  decide (suffix.length ≤ l.length) && (l.drop (l.length - suffix.length) == suffix)

/-- Embedding of isImage (src/gui/src/utils.js lines 1-3):
fileName.match of the pattern dot (jpg|jpeg|png|gif) dollar, case-insensitive.
The leading dot of the pattern is unescaped, so it matches ANY character:
the name need only end in one of the four extensions preceded by at least
one character.  (The regex dot does not match a line break; names containing
line breaks do not occur in the claims and are not distinguished here.) -/
def isImage (fileName : String) : Bool :=
  let lower := fileName.data.map Char.toLower
  ["jpg", "jpeg", "png", "gif"].any fun ext =>
    endsWithChars lower ext.data && decide (ext.data.length + 1 ≤ lower.length)

/-- A browser File object as far as the staging code reads it:
name, size (bytes) and MIME type. -/
structure LocalFile where
  name : String
  size : Nat
  type : String
  deriving Repr, DecidableEq, Inhabited

/-- One element of the upload endpoint response field files:
the server-issued id (plus the echoed name). -/
structure UploadedFile where
  id : String
  name : String
  deriving Repr, DecidableEq, Inhabited

/-- A staged attachment (element of the attachedFiles React state):
the server fields spread from the upload response, the preview object URL
(null for non-image files) and the MIME type. -/
structure AttachedFile where
  id : String
  name : String
  preview : Option Nat
  type : String
  deriving Repr, DecidableEq, Inhabited

/-- The local state touched by the attachment operations: the staged set,
the notification texts (contents of the notifications state, in insertion
order) and the allocation counter for object URL handles. -/
structure StoreState where
  attachedFiles : List AttachedFile
  notifications : List String
  nextHandle : Nat
  deriving Repr, DecidableEq

/-- The notification text built at Chat.js lines 427-430 when the batch
contains an oversized file (MAX_FILE_SIZE / 1024 / 1024 = 10). -/
def oversizeNotification : String :=
  "Some files were not uploaded due to size.\n" ++
    "Max size: " ++ toString (MAX_FILE_SIZE / 1024 / 1024) ++ "."

/-- The notification text built at Chat.js line 449 after a successful
staging: Uploaded followed by the comma-separated file names. -/
def uploadedNotification (files : List LocalFile) : String :=
  "Uploaded " ++ String.intercalate ", " (files.map (fun f => f.name))

/-- The newFiles array built in the onFileUpload callback
(Chat.js lines 440-446): entry i spreads uploadedFiles[i] (totalised with a
default when the response is shorter than the batch, matching the JavaScript
spread of undefined) and carries preview = imageUrls[i] for image names,
null otherwise.  `base` is the handle counter before the batch, so
imageUrls[i] is handle base + i. -/
def stageEntries (response : List UploadedFile) (base : Nat) :
    Nat → List LocalFile → List AttachedFile
  | _, [] => []
  | i, f :: fs =>
    { id := (response.getD i default).id,
      name := (response.getD i default).name,
      preview := if isImage f.name then some (base + i) else none,
      type := f.type } :: stageEntries response base (i + 1) fs

/-- Result of one onFileUpload call: the new local state, the object URL
handles created during the call (URL.createObjectURL is called once per file
of the batch at Chat.js line 440), and whether an upload request was sent. -/
structure StageResult where
  state : StoreState
  createdHandles : List Nat
  uploaded : Bool
  deriving Repr, DecidableEq

/-- Embedding of onFileUpload (Chat.js lines 416-452), with the upload
response supplied as a parameter (the callback runs when the XHR completes).
Oversized batch: one notification, nothing else changes, no upload.
All-valid batch: the upload is issued and the callback appends the new
entries and the Uploaded notification. -/
def onFileUpload (response : List UploadedFile) (files : List LocalFile)
    (s : StoreState) : StageResult :=
  let validFiles := files.filter (fun f => f.size ≤ MAX_FILE_SIZE)
  if validFiles.length ≠ files.length then
    { state := { s with notifications := s.notifications ++ [oversizeNotification] },
      createdHandles := [],
      uploaded := false }
  else
    let imageUrls := (List.range files.length).map (fun i => s.nextHandle + i)
    let newFiles := stageEntries response s.nextHandle 0 files
    { state :=
        { attachedFiles := s.attachedFiles ++ newFiles,
          notifications := s.notifications ++ [uploadedNotification validFiles],
          nextHandle := s.nextHandle + files.length },
      createdHandles := imageUrls,
      uploaded := true }

/-- The filter-with-side-effect inside removeAttachedFile
(Chat.js lines 455-462): entries with the given id are dropped and their
preview handles revoked, in list order; other entries are kept.
URL.revokeObjectURL(null), which the code performs for non-image entries,
releases nothing and is therefore not recorded. -/
def filterRevoke (fileId : String) : List AttachedFile → List AttachedFile × List Nat
  | [] => ([], [])
  | f :: fs =>
    let r := filterRevoke fileId fs
    if f.id = fileId then (r.1, f.preview.toList ++ r.2)
    else (f :: r.1, r.2)

/-- Embedding of removeAttachedFile (Chat.js lines 454-463): returns the new
state and the list of handles revoked by the call. -/
def removeAttachedFile (fileId : String) (s : StoreState) : StoreState × List Nat :=
  let r := filterRevoke fileId s.attachedFiles
  ({ s with attachedFiles := r.1 }, r.2)

/-- Embedding of clearFiles (Chat.js lines 134-137): revokes every staged
entry preview (revoking null releases nothing) and empties the set;
returns the new state and the revoked handles. -/
def clearFiles (s : StoreState) : StoreState × List Nat :=
  ({ s with attachedFiles := [] },
   s.attachedFiles.filterMap (fun f => f.preview))

/-- The recordingState.status values used in Chat.js: off, on, processing. -/
inductive RecStatus where
  | off
  | on
  | processing
  deriving Repr, DecidableEq

/-- The local state read and written by the recording controller, restricted
to the components the recording claims are about: the recording status, the
composer draft (inputValue) and the notification texts. -/
structure RecState where
  recStatus : RecStatus
  inputValue : String
  notifications : List String
  deriving Repr, DecidableEq

/-- Outcome of navigator.mediaDevices.getUserMedia: the stream is granted or
the promise rejects with an error message. -/
inductive MicAccess where
  | granted
  | denied (err : String)
  deriving Repr, DecidableEq

/-- Result of the process_audio RPC call: an object carrying either text or
error (Chat.js lines 390-399). -/
inductive TranscriptionResult where
  | ok (text : String)
  | error (err : String)
  deriving Repr, DecidableEq

/-- Embedding of startRecording (Chat.js lines 346-405) up to the point
where the recorder is armed: a no-op unless the status is off; on microphone
denial a notification is added and the status stays off; on success the
status becomes on.  (The onstop pipeline the started recorder will run later
is finishRecording below.) -/
def startRecording (mic : MicAccess) (s : RecState) : RecState :=
  if s.recStatus ≠ RecStatus.off then s
  else
    match mic with
    | MicAccess.denied err =>
      { s with notifications := s.notifications ++ ["Error accessing microphone: " ++ err] }
    | MicAccess.granted => { s with recStatus := RecStatus.on }

/-- The mediaRecorder.onstop pipeline (Chat.js lines 373-402) run to its
terminal outcome: status moves to processing, the audio is uploaded and
process_audio is called; its result (the parameter) either appends the
transcript to the draft (after a blank line when the draft is non-empty;
the empty draft is falsy, so it is replaced) or raises a notification; the
status ends at off in both cases. -/
def finishRecording (result : TranscriptionResult) (s : RecState) : RecState :=
  let s1 : RecState := { s with recStatus := RecStatus.processing }
  match result with
  | TranscriptionResult.error err =>
    { s1 with recStatus := RecStatus.off,
              notifications := s1.notifications ++ [err] }
  | TranscriptionResult.ok text =>
    { s1 with recStatus := RecStatus.off,
              inputValue :=
                if s1.inputValue = "" then text
                else s1.inputValue ++ "\n\n" ++ text }

/-- Embedding of stopRecording (Chat.js lines 407-413) together with the
completion of the onstop pipeline it triggers: from status on the recorder
is stopped and finishRecording runs with the eventual transcription result;
from any other status a Not currently recording notification is added and
nothing else changes.  (When the status is on, startRecording has set
mediaRecorderRef, so the guard reduces to the status test.) -/
def stopRecording (result : TranscriptionResult) (s : RecState) : RecState :=
  if s.recStatus = RecStatus.on then finishRecording result s
  else { s with notifications := s.notifications ++ ["Not currently recording."] }

/-- Outcome of the fetch of the location-trace endpoint: the response body
text, or a rejection carrying String(err). -/
inductive FetchResult where
  | ok (body : String)
  | fetchError (err : String)
  deriving Repr, DecidableEq

/-- Everything after the first occurrence of loc= in the character list,
or none when the token does not occur. -/
def locCapture : List Char → Option (List Char)
  | [] => none
  | c :: cs =>
    if (c :: cs).take 4 == "loc=".data then some (cs.drop 3)
    else locCapture cs

/-- The capture group of data.match applied to the pattern loc=(.*)
(Chat.js line 193): none when the body holds no loc= token (the match is
null); otherwise everything after the first loc= up to the end of its line
(the regex dot matches neither a line feed nor a carriage return). -/
def extractLoc (data : String) : Option String :=
  (locCapture data.data).map fun suffix =>
    String.mk (suffix.takeWhile (fun c => c != '\n' && c != '\r'))

/-- Stands for String(err) of the TypeError raised when the null result of
data.match is indexed; the browser-dependent message text is abstracted as
this fixed constant (no claim depends on its content). -/
def matchNullErrorText : String := "TypeError: cannot read property 1 of null"

/-- Embedding of needToTurnOnVPN (Chat.js lines 187-199): returns the check
result and the notification list after the call.  A fetch rejection or a
body without a loc= token lands in the catch clause, which adds a
notification and yields undefined for location, so the comparison with RU is
false; otherwise the captured token is compared with RU. -/
def needToTurnOnVPN (fr : FetchResult) (notifs : List String) : Bool × List String :=
  match fr with
  | FetchResult.fetchError err => (false, notifs ++ [err])
  | FetchResult.ok body =>
    match extractLoc body with
    | none => (false, notifs ++ [matchNullErrorText])
    | some loc => (decide (loc = "RU"), notifs)

/-- The JavaScript String.prototype.trim applied to the draft: whitespace is
stripped from both ends.  (Defined over the character list so that it
evaluates by kernel reduction; the whitespace set is Char.isWhitespace,
which agrees with JavaScript on the characters occurring in the claims.) -/
def jsTrim (s : String) : String :=
  String.mk (((s.data.dropWhile Char.isWhitespace).reverse.dropWhile
    Char.isWhitespace).reverse)

/-- The body of the message envelope assembled by sendMessage:
the trimmed draft plus the staged attachment ids. -/
structure MessageBody where
  content : String
  attachments : List String
  deriving Repr, DecidableEq

/-- The envelope pushed to the message list and passed to process_message
(Chat.js lines 220-229); uiAttachments is the __ui__.attachments copy. -/
structure MessageEnvelope where
  sender : String
  body : MessageBody
  uiAttachments : List AttachedFile
  deriving Repr, DecidableEq

/-- The local state read and written by sendMessage: the draft, the waiting
flag, the message list, the staged attachments and the notifications. -/
structure SendState where
  inputValue : String
  isWaitingAnswer : Bool
  messages : List MessageEnvelope
  attachedFiles : List AttachedFile
  notifications : List String
  deriving Repr, DecidableEq

/-- Outcome of the process_message RPC call. -/
inductive RpcResult where
  | ok
  | error (e : String)
  deriving Repr, DecidableEq

/-- Result of one sendMessage call: the new local state, whether the
process_message RPC call was issued, the errors routed to the shared
processRpcError callback, and the error of an unhandled rejection of the
async function itself (none when it resolves). -/
structure SendOutcome where
  state : SendState
  rpcCalled : Bool
  routedErrors : List String
  thrown : Option String
  deriving Repr, DecidableEq

/-- Embedding of sendMessage in Chat.js (lines 201-240), parameterised by
the fetch outcome of the VPN check and the outcome of the RPC call.
Empty trimmed draft: nothing happens.  Gated: the trimmed draft is restored,
the VPN notification is added, no RPC call is made.  Otherwise the envelope
is appended and process_message is called with no catch attached: on RPC
error the await throws, so clearFiles and the waiting-flag reset are
skipped and the rejection leaves the function unhandled. -/
def ChatJs.sendMessage (vf : FetchResult) (rpc : RpcResult) (s : SendState) :
    SendOutcome :=
  let message := jsTrim s.inputValue
  if message = "" then
    { state := s, rpcCalled := false, routedErrors := [], thrown := none }
  else
    let s1 : SendState := { s with isWaitingAnswer := true, inputValue := "" }
    let vpn := needToTurnOnVPN vf s1.notifications
    let s2 : SendState := { s1 with notifications := vpn.2 }
    if vpn.1 then
      let gatedState : SendState :=
        { s2 with notifications := s2.notifications ++ ["You need to turn on VPN"],
                  inputValue := message,
                  isWaitingAnswer := false }
      { state := gatedState, rpcCalled := false, routedErrors := [], thrown := none }
    else
      let preparedMessage : MessageEnvelope :=
        { sender := "user",
          body := { content := message,
                    attachments := s2.attachedFiles.map (fun f => f.id) },
          uiAttachments := s2.attachedFiles }
      let s3 : SendState := { s2 with messages := s2.messages ++ [preparedMessage] }
      match rpc with
      | RpcResult.error e =>
        { state := s3, rpcCalled := true, routedErrors := [], thrown := some e }
      | RpcResult.ok =>
        let doneState : SendState := { s3 with attachedFiles := [], isWaitingAnswer := false }
        { state := doneState, rpcCalled := true, routedErrors := [], thrown := none }

/-- Embedding of sendMessage in the useChatState hook
(src/unnamed/part_008 lines 67-118).  Identical to the Chat.js version
except that the RPC call carries catch processRpcError: an RPC error is
routed to the callback, the await then resolves, and clearFiles and the
waiting-flag reset run in both outcomes. -/
def UseChatState.sendMessage (vf : FetchResult) (rpc : RpcResult) (s : SendState) :
    SendOutcome :=
  let message := jsTrim s.inputValue
  if message = "" then
    { state := s, rpcCalled := false, routedErrors := [], thrown := none }
  else
    let s1 : SendState := { s with isWaitingAnswer := true, inputValue := "" }
    let vpn := needToTurnOnVPN vf s1.notifications
    let s2 : SendState := { s1 with notifications := vpn.2 }
    if vpn.1 then
      let gatedState : SendState :=
        { s2 with notifications := s2.notifications ++ ["You need to turn on VPN"],
                  inputValue := message,
                  isWaitingAnswer := false }
      { state := gatedState, rpcCalled := false, routedErrors := [], thrown := none }
    else
      let preparedMessage : MessageEnvelope :=
        { sender := "user",
          body := { content := message,
                    attachments := s2.attachedFiles.map (fun f => f.id) },
          uiAttachments := s2.attachedFiles }
      let s3 : SendState := { s2 with messages := s2.messages ++ [preparedMessage] }
      let routed := match rpc with
        | RpcResult.error e => [e]
        | RpcResult.ok => []
      let doneState : SendState := { s3 with attachedFiles := [], isWaitingAnswer := false }
      { state := doneState, rpcCalled := true, routedErrors := routed, thrown := none }

/-- The final status line pushed by xhr.onload in uploadFiles
(Chat.js lines 318-334) when the upload is composer-visible. -/
def uploadTerminalText (ok : Bool) : String :=
  if ok then "Files uploaded successfully" else "Failed to upload files"

/-- The pair of chat-state updates issued by xhr.onload in uploadFiles
(Chat.js lines 318-330) for a composer-visible upload: the terminal status
line stamped with the completion timestamp t, and the clearing update
(text null) the 2000 ms timer issues afterwards, stamped t + 1. -/
def uploadOnloadUpdates (ok : Bool) (t : Nat) : ChatUpdate × ChatUpdate :=
  ({ text := some (some (uploadTerminalText ok)), status := none, timestamp := some t },
   { text := some none, status := none, timestamp := some (t + 1) })

/-- The record committed by an accepted update: omitted fields retain their
stored values, a supplied text moves the stored text into prevText. -/
def committedState (now : Nat) (u : ChatUpdate) (s : ChatState) : ChatState :=
  { status := u.status.getD s.status,
    text := match u.text with
      | none => s.text
      | some t => t,
    prevText := match u.text with
      | none => s.prevText
      | some _ => s.text,
    timestamp := effTimestamp now u }

theorem updateChatState_of_lt (now : Nat) (u : ChatUpdate) (s : ChatState)
    (h : effTimestamp now u < s.timestamp) : updateChatState now u s = s := by
  unfold updateChatState
  simp only
  rw [if_neg (by omega)]

theorem updateChatState_of_le (now : Nat) (u : ChatUpdate) (s : ChatState)
    (h : s.timestamp ≤ effTimestamp now u) :
    updateChatState now u s = committedState now u s := by
  unfold updateChatState committedState
  simp only
  rw [if_pos h]

/-- C1: an update with a timestamp strictly below the stored one leaves the
stored state completely unchanged; an update with a timestamp at least the
stored one is committed with omitted text and status retaining their
previous values; the stored timestamp never decreases, over one update and
over any sequence of updates in any arrival order. -/
theorem c1_monotonic_status_merge (now : Nat) (u : ChatUpdate) (s : ChatState)
    (l : List (Nat × ChatUpdate)) :
    (effTimestamp now u < s.timestamp → updateChatState now u s = s) ∧
    (s.timestamp ≤ effTimestamp now u →
      updateChatState now u s = committedState now u s) ∧
    s.timestamp ≤ (updateChatState now u s).timestamp ∧
    s.timestamp ≤ (applyUpdates l s).timestamp :=
  ⟨updateChatState_of_lt now u s, updateChatState_of_le now u s,
   updateChatState_timestamp_mono now u s, applyUpdates_timestamp_mono l s⟩

/-- C1 witness: at timestamp 3 against stored timestamp 5 the state is kept;
a status-only update at timestamp 7 against stored timestamp 5 commits with
text and prevText retained. -/
theorem c1_monotonic_status_merge_witness :
    updateChatState 0 ⟨some (some "new"), some "busy", some 3⟩ ⟨"idle", some "old", none, 5⟩ =
      ⟨"idle", some "old", none, 5⟩ ∧
    updateChatState 7 ⟨none, some "loading", none⟩ ⟨"idle", some "A", some "B", 5⟩ =
      ⟨"loading", some "A", some "B", 7⟩ := by
  constructor
  · exact (c1_monotonic_status_merge 0 ⟨some (some "new"), some "busy", some 3⟩
      ⟨"idle", some "old", none, 5⟩ []).1 (by decide)
  · exact ((c1_monotonic_status_merge 7 ⟨none, some "loading", none⟩
      ⟨"idle", some "A", some "B", 5⟩ []).2.1 (by decide)).trans (by decide)

/-- C2 counterexample: the accepted status-only update at timestamp 1 (the
stored timestamp is 0, so it commits and changes the stored state) leaves
prevText at null, not at the stored text value "A" that was current
immediately before the commit. -/
theorem c2_counterexample :
    updateChatState 0 ⟨none, some "loading", some 1⟩ ⟨"idle", some "A", none, 0⟩ ≠
        ⟨"idle", some "A", none, 0⟩ ∧
    (updateChatState 0 ⟨none, some "loading", some 1⟩ ⟨"idle", some "A", none, 0⟩).timestamp
        = 1 ∧
    (updateChatState 0 ⟨none, some "loading", some 1⟩ ⟨"idle", some "A", none, 0⟩).prevText
        ≠ some "A" := by
  decide

/-- C2 amended: for an accepted update that supplies a text field, the
stored prevText after the commit equals the text value current immediately
before the commit; an accepted update that omits the text field retains
both text and prevText unchanged. -/
theorem c2_prevText_on_commit (now : Nat) (u : ChatUpdate) (s : ChatState)
    (hacc : s.timestamp ≤ effTimestamp now u) :
    (∀ t, u.text = some t → (updateChatState now u s).prevText = s.text) ∧
    (u.text = none →
      (updateChatState now u s).prevText = s.prevText ∧
      (updateChatState now u s).text = s.text) := by
  rw [updateChatState_of_le now u s hacc]
  constructor
  · intro t ht
    simp [committedState, ht]
  · intro ht
    simp [committedState, ht]

/-- C2 amended witness: a text-carrying commit moves the old text into
prevText; a status-only commit keeps text and prevText. -/
theorem c2_prevText_on_commit_witness :
    (updateChatState 0 ⟨some (some "B"), none, some 2⟩ ⟨"idle", some "A", none, 0⟩).prevText
        = some "A" ∧
    (updateChatState 0 ⟨none, some "loading", some 1⟩ ⟨"idle", some "A", none, 0⟩).prevText
        = none ∧
    (updateChatState 0 ⟨none, some "loading", some 1⟩ ⟨"idle", some "A", none, 0⟩).text
        = some "A" := by
  refine ⟨?_, ?_, ?_⟩
  · exact (c2_prevText_on_commit 0 ⟨some (some "B"), none, some 2⟩
      ⟨"idle", some "A", none, 0⟩ (by decide)).1 (some "B") rfl
  · exact ((c2_prevText_on_commit 0 ⟨none, some "loading", some 1⟩
      ⟨"idle", some "A", none, 0⟩ (by decide)).2 rfl).1.trans (by decide)
  · exact ((c2_prevText_on_commit 0 ⟨none, some "loading", some 1⟩
      ⟨"idle", some "A", none, 0⟩ (by decide)).2 rfl).2.trans (by decide)

/-- C9: for a composer-visible upload reaching a terminal outcome at
timestamp t, the terminal status update carries timestamp t and the delayed
clearing update carries t + 1; whenever the terminal update was committed,
the clearing update is also committed by the merge rule, clearing the text
it wrote. -/
theorem c9_upload_clear_commits (ok : Bool) (t now1 now2 : Nat) (s : ChatState)
    (h : s.timestamp ≤ t) :
    (uploadOnloadUpdates ok t).1.timestamp = some t ∧
    (uploadOnloadUpdates ok t).2.timestamp = some (t + 1) ∧
    (updateChatState now1 (uploadOnloadUpdates ok t).1 s).text
        = some (uploadTerminalText ok) ∧
    updateChatState now2 (uploadOnloadUpdates ok t).2
        (updateChatState now1 (uploadOnloadUpdates ok t).1 s) =
      ⟨s.status, none, some (uploadTerminalText ok), t + 1⟩ := by
  have h1 : updateChatState now1 (uploadOnloadUpdates ok t).1 s =
      ⟨s.status, some (uploadTerminalText ok), s.text, t⟩ := by
    rw [updateChatState_of_le now1 _ s (by simpa [uploadOnloadUpdates, effTimestamp] using h)]
    simp [committedState, uploadOnloadUpdates, effTimestamp]
  refine ⟨rfl, rfl, ?_, ?_⟩
  · rw [h1]
  · rw [h1, updateChatState_of_le now2 _ _ (by simp [uploadOnloadUpdates, effTimestamp])]
    simp [committedState, uploadOnloadUpdates, effTimestamp]

/-- C9 witness: stored timestamp 5, completion at t = 5: the terminal line
commits and the clearing update at t + 1 = 6 commits on top of it. -/
theorem c9_upload_clear_commits_witness :
    (uploadOnloadUpdates true 5).1.timestamp = some 5 ∧
    (uploadOnloadUpdates true 5).2.timestamp = some 6 ∧
    (updateChatState 0 (uploadOnloadUpdates true 5).1 ⟨"idle", none, none, 5⟩).text
        = some (uploadTerminalText true) ∧
    updateChatState 0 (uploadOnloadUpdates true 5).2
        (updateChatState 0 (uploadOnloadUpdates true 5).1 ⟨"idle", none, none, 5⟩) =
      ⟨"idle", none, some (uploadTerminalText true), 6⟩ :=
  c9_upload_clear_commits true 5 0 0 ⟨"idle", none, none, 5⟩ (by decide)

theorem stageEntries_length (r : List UploadedFile) (b : Nat) :
    ∀ (j : Nat) (fs : List LocalFile), (stageEntries r b j fs).length = fs.length := by
  intro j fs
  induction fs generalizing j with
  | nil => rfl
  | cons f fs ih => simp [stageEntries, ih]

theorem stageEntries_getD_id (r : List UploadedFile) (b : Nat) :
    ∀ (fs : List LocalFile) (j i : Nat), i < fs.length →
      ((stageEntries r b j fs).getD i default).id = (r.getD (j + i) default).id := by
  intro fs
  induction fs with
  | nil => intro j i h; simp at h
  | cons f fs ih =>
    intro j i h
    cases i with
    | zero => simp [stageEntries]
    | succ i =>
      have hlt : i < fs.length := by simpa using Nat.lt_of_succ_lt_succ h
      have := ih (j + 1) i hlt
      simp only [stageEntries, List.getD_cons_succ]
      rw [this]
      have harith : j + 1 + i = j + (i + 1) := by omega
      rw [harith]

theorem getD_append_add_length {α : Type} (l m : List α) (i : Nat) (d : α) :
    (l ++ m).getD (l.length + i) d = m.getD i d := by
  induction l with
  | nil => simp
  | cons a l ih =>
    have harith : (a :: l).length + i = (l.length + i) + 1 := by simp; omega
    rw [harith]
    simpa using ih

/-- C3: a batch with an oversized file leaves the staged set (and the handle
counter) unchanged, adds exactly the one oversize notification, and issues
no upload; an all-valid batch is uploaded, the staged set grows by exactly
the batch size, and the entry staged for the file at index i carries the id
of the upload response at index i. -/
theorem c3_batch_atomicity (response : List UploadedFile) (files : List LocalFile)
    (s : StoreState) :
    ((∃ f ∈ files, MAX_FILE_SIZE < f.size) →
      (onFileUpload response files s).state.attachedFiles = s.attachedFiles ∧
      (onFileUpload response files s).state.notifications =
        s.notifications ++ [oversizeNotification] ∧
      (onFileUpload response files s).state.nextHandle = s.nextHandle ∧
      (onFileUpload response files s).uploaded = false) ∧
    ((∀ f ∈ files, f.size ≤ MAX_FILE_SIZE) →
      (onFileUpload response files s).uploaded = true ∧
      (onFileUpload response files s).state.attachedFiles.length =
        s.attachedFiles.length + files.length ∧
      ∀ i, i < files.length →
        ((onFileUpload response files s).state.attachedFiles.getD
            (s.attachedFiles.length + i) default).id =
          (response.getD i default).id) := by
  constructor
  · rintro ⟨f, hf, hsize⟩
    have hlt : (files.filter (fun f => f.size ≤ MAX_FILE_SIZE)).length < files.length :=
      List.length_filter_lt_length_iff_exists.mpr ⟨f, hf, by simpa using Nat.not_le.mpr hsize⟩
    unfold onFileUpload
    simp only
    rw [if_pos (Nat.ne_of_lt hlt)]
    exact ⟨rfl, rfl, rfl, rfl⟩
  · intro hall
    have heq : files.filter (fun f => f.size ≤ MAX_FILE_SIZE) = files :=
      List.filter_eq_self.mpr (fun f hf => by simpa using hall f hf)
    unfold onFileUpload
    simp only
    rw [if_neg (by rw [heq]; exact fun h => h rfl)]
    refine ⟨rfl, ?_, ?_⟩
    · simp [stageEntries_length]
    · intro i hi
      have h1 : (s.attachedFiles ++ stageEntries response s.nextHandle 0 files).getD
          (s.attachedFiles.length + i) default =
          (stageEntries response s.nextHandle 0 files).getD i default :=
        getD_append_add_length _ _ i default
      simp only [h1]
      simpa using stageEntries_getD_id response s.nextHandle files 0 i hi

/-- C3 witness: a two-file batch with an oversized second file is rejected
atomically; a two-file valid batch is staged with ids in response order. -/
theorem c3_batch_atomicity_witness :
    ((onFileUpload [] [⟨"a.png", 3, "image/png"⟩, ⟨"big.bin", 10485761, "b"⟩]
        ⟨[], [], 0⟩).state.attachedFiles = [] ∧
      (onFileUpload [] [⟨"a.png", 3, "image/png"⟩, ⟨"big.bin", 10485761, "b"⟩]
        ⟨[], [], 0⟩).state.notifications = [] ++ [oversizeNotification] ∧
      (onFileUpload [] [⟨"a.png", 3, "image/png"⟩, ⟨"big.bin", 10485761, "b"⟩]
        ⟨[], [], 0⟩).state.nextHandle = 0 ∧
      (onFileUpload [] [⟨"a.png", 3, "image/png"⟩, ⟨"big.bin", 10485761, "b"⟩]
        ⟨[], [], 0⟩).uploaded = false) ∧
    ((onFileUpload [⟨"idA", "a.png"⟩, ⟨"idB", "b.txt"⟩]
        [⟨"a.png", 3, "image/png"⟩, ⟨"b.txt", 4, "text/plain"⟩]
        ⟨[], [], 0⟩).uploaded = true ∧
      (onFileUpload [⟨"idA", "a.png"⟩, ⟨"idB", "b.txt"⟩]
        [⟨"a.png", 3, "image/png"⟩, ⟨"b.txt", 4, "text/plain"⟩]
        ⟨[], [], 0⟩).state.attachedFiles.length = 0 + 2 ∧
      ((onFileUpload [⟨"idA", "a.png"⟩, ⟨"idB", "b.txt"⟩]
        [⟨"a.png", 3, "image/png"⟩, ⟨"b.txt", 4, "text/plain"⟩]
        ⟨[], [], 0⟩).state.attachedFiles.getD (0 + 1) default).id =
        ([⟨"idA", "a.png"⟩, (⟨"idB", "b.txt"⟩ : UploadedFile)].getD 1 default).id) := by
  constructor
  · exact (c3_batch_atomicity [] [⟨"a.png", 3, "image/png"⟩, ⟨"big.bin", 10485761, "b"⟩]
      ⟨[], [], 0⟩).1 ⟨⟨"big.bin", 10485761, "b"⟩, by decide, by decide⟩
  · obtain ⟨h1, h2, h3⟩ := (c3_batch_atomicity [⟨"idA", "a.png"⟩, ⟨"idB", "b.txt"⟩]
      [⟨"a.png", 3, "image/png"⟩, ⟨"b.txt", 4, "text/plain"⟩] ⟨[], [], 0⟩).2
      (by decide)
    exact ⟨h1, by simpa using h2, h3 1 (by decide)⟩

/-- C4: the claim fails on the code.  Staging the single non-image file
notes.txt creates the object URL handle 0 (URL.createObjectURL is called
for every file of the batch), but the staged entry stores preview null, so
neither removeAttachedFile on its id nor clearFiles revokes any handle:
handle 0 is released zero times even after the staged set is emptied. -/
theorem c4_nonimage_handle_never_released :
    (onFileUpload [⟨"id1", "notes.txt"⟩] [⟨"notes.txt", 5, "text/plain"⟩]
        ⟨[], [], 0⟩).createdHandles = [0] ∧
    (onFileUpload [⟨"id1", "notes.txt"⟩] [⟨"notes.txt", 5, "text/plain"⟩]
        ⟨[], [], 0⟩).state.attachedFiles =
      [⟨"id1", "notes.txt", none, "text/plain"⟩] ∧
    (clearFiles (onFileUpload [⟨"id1", "notes.txt"⟩] [⟨"notes.txt", 5, "text/plain"⟩]
        ⟨[], [], 0⟩).state).2 = [] ∧
    (clearFiles (onFileUpload [⟨"id1", "notes.txt"⟩] [⟨"notes.txt", 5, "text/plain"⟩]
        ⟨[], [], 0⟩).state).1.attachedFiles = [] ∧
    (removeAttachedFile "id1" (onFileUpload [⟨"id1", "notes.txt"⟩]
        [⟨"notes.txt", 5, "text/plain"⟩] ⟨[], [], 0⟩).state).2 = [] := by
  decide

theorem filterRevoke_of_not_mem (fileId : String) (l : List AttachedFile)
    (h : ∀ f ∈ l, f.id ≠ fileId) : filterRevoke fileId l = (l, []) := by
  induction l with
  | nil => rfl
  | cons f fs ih =>
    simp only [filterRevoke]
    rw [if_neg (h f (by simp))]
    rw [ih (fun g hg => h g (by simp [hg]))]

theorem filterRevoke_fst_id_ne (fileId : String) (l : List AttachedFile) :
    ∀ f ∈ (filterRevoke fileId l).1, f.id ≠ fileId := by
  induction l with
  | nil => intro f hf; cases hf
  | cons g gs ih =>
    simp only [filterRevoke]
    by_cases h : g.id = fileId
    · rw [if_pos h]
      exact ih
    · rw [if_neg h]
      intro f hf
      rcases List.mem_cons.mp hf with hf | hf
      · rw [hf]; exact h
      · exact ih f hf

/-- C5: removing an id that is not staged changes nothing and revokes
nothing; after one removeAttachedFile call no entry with that id remains,
and a second call with the same id leaves the state unchanged and revokes
nothing, so the removed entry preview is released exactly once. -/
theorem c5_remove_idempotent (fileId : String) (s : StoreState) :
    ((∀ f ∈ s.attachedFiles, f.id ≠ fileId) →
      removeAttachedFile fileId s = (s, [])) ∧
    (∀ f ∈ (removeAttachedFile fileId s).1.attachedFiles, f.id ≠ fileId) ∧
    removeAttachedFile fileId (removeAttachedFile fileId s).1 =
      ((removeAttachedFile fileId s).1, []) := by
  refine ⟨?_, ?_, ?_⟩
  · intro h
    unfold removeAttachedFile
    rw [filterRevoke_of_not_mem fileId _ h]
  · intro f hf
    exact filterRevoke_fst_id_ne fileId s.attachedFiles f hf
  · unfold removeAttachedFile
    simp only
    rw [filterRevoke_of_not_mem fileId _ (filterRevoke_fst_id_ne fileId s.attachedFiles)]

/-- C5 witness: removing an absent id is a no-op; removing x.png twice
removes it and revokes its handle 0 exactly once, the second call revoking
nothing. -/
theorem c5_remove_idempotent_witness :
    removeAttachedFile "missing" ⟨[⟨"idA", "x.png", some 0, "image/png"⟩], [], 1⟩ =
      (⟨[⟨"idA", "x.png", some 0, "image/png"⟩], [], 1⟩, []) ∧
    removeAttachedFile "idA" ⟨[⟨"idA", "x.png", some 0, "image/png"⟩], [], 1⟩ =
      (⟨[], [], 1⟩, [0]) ∧
    removeAttachedFile "idA"
        (removeAttachedFile "idA" ⟨[⟨"idA", "x.png", some 0, "image/png"⟩], [], 1⟩).1 =
      ((removeAttachedFile "idA" ⟨[⟨"idA", "x.png", some 0, "image/png"⟩], [], 1⟩).1, []) := by
  refine ⟨?_, by decide, ?_⟩
  · exact (c5_remove_idempotent "missing"
      ⟨[⟨"idA", "x.png", some 0, "image/png"⟩], [], 1⟩).1 (by decide)
  · exact (c5_remove_idempotent "idA"
      ⟨[⟨"idA", "x.png", some 0, "image/png"⟩], [], 1⟩).2.2

/-- C6: startRecording from on or processing changes nothing; stopRecording
outside on adds the Not currently recording notification and changes
nothing else; a start, stop, transcription-success cycle from off ends at
off with the transcript appended to a non-empty draft after one blank line
(an empty draft is replaced) and no notification; a cycle ending in
transcription failure ends at off with the draft unchanged and the error
notification present. -/
theorem c6_recording_totality (mic : MicAccess) (r : TranscriptionResult)
    (t e : String) (s : RecState) :
    ((s.recStatus = RecStatus.on ∨ s.recStatus = RecStatus.processing) →
      startRecording mic s = s) ∧
    (s.recStatus ≠ RecStatus.on →
      stopRecording r s =
        { s with notifications := s.notifications ++ ["Not currently recording."] }) ∧
    (s.recStatus = RecStatus.off →
      stopRecording (TranscriptionResult.ok t) (startRecording MicAccess.granted s) =
        { s with recStatus := RecStatus.off,
                 inputValue := if s.inputValue = "" then t
                               else s.inputValue ++ "\n\n" ++ t }) ∧
    (s.recStatus = RecStatus.off →
      stopRecording (TranscriptionResult.error e) (startRecording MicAccess.granted s) =
        { s with recStatus := RecStatus.off,
                 notifications := s.notifications ++ [e] }) := by
  refine ⟨?_, ?_, ?_, ?_⟩
  · intro h
    unfold startRecording
    rcases h with h | h <;> rw [h] <;> rfl
  · intro h
    unfold stopRecording
    rw [if_neg h]
  · intro h
    unfold startRecording
    rw [if_neg (by rw [h]; exact fun hc => nomatch hc)]
    unfold stopRecording finishRecording
    rw [if_pos rfl]
  · intro h
    unfold startRecording
    rw [if_neg (by rw [h]; exact fun hc => nomatch hc)]
    unfold stopRecording finishRecording
    rw [if_pos rfl]

/-- C6 witness: start from on is a no-op, stop from off notifies, the
success cycle turns draft Hello and transcript world into Hello, a blank
line and world, and the failure cycle keeps the draft and adds the error. -/
theorem c6_recording_totality_witness :
    startRecording MicAccess.granted ⟨RecStatus.on, "x", []⟩ = ⟨RecStatus.on, "x", []⟩ ∧
    stopRecording (TranscriptionResult.ok "w") ⟨RecStatus.off, "x", []⟩ =
      ⟨RecStatus.off, "x", ["Not currently recording."]⟩ ∧
    stopRecording (TranscriptionResult.ok "world")
        (startRecording MicAccess.granted ⟨RecStatus.off, "Hello", []⟩) =
      ⟨RecStatus.off, "Hello\n\nworld", []⟩ ∧
    stopRecording (TranscriptionResult.error "speech failed")
        (startRecording MicAccess.granted ⟨RecStatus.off, "Hello", []⟩) =
      ⟨RecStatus.off, "Hello", ["speech failed"]⟩ := by
  refine ⟨?_, ?_, ?_, ?_⟩
  · exact (c6_recording_totality MicAccess.granted (TranscriptionResult.ok "w") "t" "e"
      ⟨RecStatus.on, "x", []⟩).1 (Or.inl rfl)
  · exact ((c6_recording_totality MicAccess.granted (TranscriptionResult.ok "w") "t" "e"
      ⟨RecStatus.off, "x", []⟩).2.1 (by decide)).trans (by decide)
  · exact ((c6_recording_totality MicAccess.granted (TranscriptionResult.ok "w") "world" "e"
      ⟨RecStatus.off, "Hello", []⟩).2.2.1 rfl).trans (by decide)
  · exact ((c6_recording_totality MicAccess.granted (TranscriptionResult.ok "w") "t"
      "speech failed" ⟨RecStatus.off, "Hello", []⟩).2.2.2 rfl).trans (by decide)

theorem needToTurnOnVPN_snd_of_gated (vf : FetchResult) (ns : List String)
    (h : (needToTurnOnVPN vf ns).1 = true) : (needToTurnOnVPN vf ns).2 = ns := by
  cases vf with
  | fetchError e => simp [needToTurnOnVPN] at h
  | ok body =>
    simp only [needToTurnOnVPN] at h ⊢
    cases hx : extractLoc body with
    | none => rw [hx] at h; simp at h
    | some loc => rfl

/-- C7 counterexample: with the draft holding a leading and a trailing
space, the gating check returns true (the trace body carries loc=RU), no
RPC call is made, but the restored draft is the trimmed string hi, not the
exact original string. -/
theorem c7_counterexample :
    (needToTurnOnVPN (FetchResult.ok "loc=RU\n") ([] : List String)).1 = true ∧
    (ChatJs.sendMessage (FetchResult.ok "loc=RU\n") RpcResult.ok
        ⟨" hi ", false, [], [], []⟩).rpcCalled = false ∧
    (ChatJs.sendMessage (FetchResult.ok "loc=RU\n") RpcResult.ok
        ⟨" hi ", false, [], [], []⟩).state.inputValue ≠ " hi " := by
  decide

/-- C7 amended: for a draft with non-empty trim, when the gating check
returns true, sendMessage restores the composer draft to the trimmed
original string (equal to the original exactly when it has no surrounding
whitespace), adds the VPN notification, issues no process_message call,
appends nothing to the message list, and leaves the staged set alone. -/
theorem c7_send_gating (vf : FetchResult) (rpc : RpcResult) (s : SendState)
    (hne : jsTrim s.inputValue ≠ "")
    (hg : (needToTurnOnVPN vf s.notifications).1 = true) :
    ChatJs.sendMessage vf rpc s =
      { state := ⟨jsTrim s.inputValue, false, s.messages, s.attachedFiles,
          s.notifications ++ ["You need to turn on VPN"]⟩,
        rpcCalled := false, routedErrors := [], thrown := none } := by
  unfold ChatJs.sendMessage
  simp only
  rw [if_neg hne, if_pos hg]
  rw [needToTurnOnVPN_snd_of_gated vf s.notifications hg]

/-- C7 amended witness: draft with surrounding spaces, gated: the trimmed
draft hi is restored, the notification is added, nothing is sent. -/
theorem c7_send_gating_witness :
    ChatJs.sendMessage (FetchResult.ok "loc=RU\n") RpcResult.ok
        ⟨" hi ", false, [], [], []⟩ =
      { state := ⟨"hi", false, [], [], ["You need to turn on VPN"]⟩,
        rpcCalled := false, routedErrors := [], thrown := none } :=
  (c7_send_gating (FetchResult.ok "loc=RU\n") RpcResult.ok
    ⟨" hi ", false, [], [], []⟩ (by decide) (by decide)).trans (by decide)

/-- C8: in the useChatState hook, when the trimmed draft is non-empty and
the gating check returns false, sendMessage issues the process_message call
and, in both terminal outcomes of the call, clears the staged attachments
and unsets the waiting flag; an RPC error is routed to the processRpcError
callback and the function itself never rejects. -/
theorem c8_send_terminal_cleanup (vf : FetchResult) (rpc : RpcResult) (s : SendState)
    (hne : jsTrim s.inputValue ≠ "")
    (hg : (needToTurnOnVPN vf s.notifications).1 = false) :
    (UseChatState.sendMessage vf rpc s).rpcCalled = true ∧
    (UseChatState.sendMessage vf rpc s).state.attachedFiles = [] ∧
    (UseChatState.sendMessage vf rpc s).state.isWaitingAnswer = false ∧
    (UseChatState.sendMessage vf rpc s).thrown = none ∧
    (UseChatState.sendMessage vf rpc s).routedErrors =
      (match rpc with
        | RpcResult.error e => [e]
        | RpcResult.ok => []) := by
  unfold UseChatState.sendMessage
  simp only
  rw [if_neg hne, if_neg (by rw [hg]; exact fun hc => nomatch hc)]
  exact ⟨rfl, rfl, rfl, rfl, rfl⟩

/-- C8 witness: an ungated send whose RPC call fails still clears the
staged attachment and unsets the waiting flag, with the error routed to
the callback and no rejection escaping. -/
theorem c8_send_terminal_cleanup_witness :
    (UseChatState.sendMessage (FetchResult.ok "loc=US\n") (RpcResult.error "rpc down")
        ⟨"hi", false, [], [⟨"idA", "x.png", some 0, "image/png"⟩], []⟩).rpcCalled = true ∧
    (UseChatState.sendMessage (FetchResult.ok "loc=US\n") (RpcResult.error "rpc down")
        ⟨"hi", false, [], [⟨"idA", "x.png", some 0, "image/png"⟩], []⟩).state.attachedFiles
      = [] ∧
    (UseChatState.sendMessage (FetchResult.ok "loc=US\n") (RpcResult.error "rpc down")
        ⟨"hi", false, [], [⟨"idA", "x.png", some 0, "image/png"⟩], []⟩).state.isWaitingAnswer
      = false ∧
    (UseChatState.sendMessage (FetchResult.ok "loc=US\n") (RpcResult.error "rpc down")
        ⟨"hi", false, [], [⟨"idA", "x.png", some 0, "image/png"⟩], []⟩).thrown = none ∧
    (UseChatState.sendMessage (FetchResult.ok "loc=US\n") (RpcResult.error "rpc down")
        ⟨"hi", false, [], [⟨"idA", "x.png", some 0, "image/png"⟩], []⟩).routedErrors
      = ["rpc down"] := by
  obtain ⟨h1, h2, h3, h4, h5⟩ := c8_send_terminal_cleanup (FetchResult.ok "loc=US\n")
    (RpcResult.error "rpc down")
    ⟨"hi", false, [], [⟨"idA", "x.png", some 0, "image/png"⟩], []⟩
    (by decide) (by decide)
  exact ⟨h1, h2, h3, h4, h5.trans (by decide)⟩

theorem needToTurnOnVPN_fst_false_of_no_loc (vf : FetchResult)
    (h : ∀ body, vf = FetchResult.ok body → extractLoc body = none) :
    ∀ ns, (needToTurnOnVPN vf ns).1 = false := by
  intro ns
  cases vf with
  | fetchError e => rfl
  | ok body =>
    simp only [needToTurnOnVPN]
    rw [h body rfl]

theorem needToTurnOnVPN_snd_of_no_loc (vf : FetchResult)
    (h : ∀ body, vf = FetchResult.ok body → extractLoc body = none) :
    ∀ ns, (needToTurnOnVPN vf ns).2.length = ns.length + 1 := by
  intro ns
  cases vf with
  | fetchError e => simp [needToTurnOnVPN]
  | ok body =>
    simp only [needToTurnOnVPN]
    rw [h body rfl]
    simp

/-- C10: when the location-trace fetch rejects, or its body holds no loc=
token, the error lands in the catch clause as a notification, the check
evaluates to false, and sendMessage with a non-empty trimmed draft still
issues the process_message call. -/
theorem c10_gate_fails_open (vf : FetchResult) (ns : List String)
    (rpc : RpcResult) (s : SendState)
    (h : ∀ body, vf = FetchResult.ok body → extractLoc body = none) :
    (needToTurnOnVPN vf ns).1 = false ∧
    (needToTurnOnVPN vf ns).2.length = ns.length + 1 ∧
    (jsTrim s.inputValue ≠ "" → (ChatJs.sendMessage vf rpc s).rpcCalled = true) := by
  refine ⟨needToTurnOnVPN_fst_false_of_no_loc vf h ns,
    needToTurnOnVPN_snd_of_no_loc vf h ns, ?_⟩
  intro hne
  unfold ChatJs.sendMessage
  simp only
  rw [if_neg hne]
  rw [if_neg (by
    rw [needToTurnOnVPN_fst_false_of_no_loc vf h]
    exact fun hc => nomatch hc)]
  cases rpc <;> rfl

/-- C10 witness: a rejected fetch leaves the check false, adds one
notification, and the send still reaches the RPC call. -/
theorem c10_gate_fails_open_witness :
    (needToTurnOnVPN (FetchResult.fetchError "Failed to fetch") []).1 = false ∧
    (needToTurnOnVPN (FetchResult.fetchError "Failed to fetch") []).2.length = 0 + 1 ∧
    (ChatJs.sendMessage (FetchResult.fetchError "Failed to fetch") RpcResult.ok
        ⟨"hi", false, [], [], []⟩).rpcCalled = true := by
  obtain ⟨h1, h2, h3⟩ := c10_gate_fails_open (FetchResult.fetchError "Failed to fetch")
    [] RpcResult.ok ⟨"hi", false, [], [], []⟩ (fun body hb => nomatch hb)
  exact ⟨h1, h2, h3 (by decide)⟩

end Copilot
